import Mathlib

/-!
Verification development for the tradingview-service component of the
crypto-grid-trader repository.  The definitions below are a shallow
embedding of src/tradingview-service/src/index.js and
src/tradingview-service/src/auth.js: external effects (the quote
provider login, the captcha browser flow, chart data) are supplied as
explicit oracle values, and the JavaScript control flow is translated
function by function.
-/

namespace TVService

/-! JavaScript string helpers.  JS toLowerCase is modelled for the ASCII
range, which is faithful here because every needle the code compares
against (captcha, robot, the URLs, the cookie names) is ASCII. -/

/-- ASCII lower-casing of a single character, as JS toLowerCase acts on
the ASCII range. -/
def asciiLower (c : Char) : Char :=
  if 'A' ≤ c ∧ c ≤ 'Z' then Char.ofNat (c.toNat + 32) else c

/-- Model of JS String.prototype.toLowerCase restricted to ASCII. -/
def jsToLowerCase (s : String) : String :=
  ⟨s.data.map asciiLower⟩

/-- Whether the list l begins with the pattern pat. -/
def beginsWith : List Char → List Char → Bool
  | _, [] => true
  | [], _ :: _ => false
  | c :: cs, p :: ps => c == p && beginsWith cs ps

/-- Whether the pattern pat occurs contiguously inside the list l. -/
def hasSeg (pat : List Char) : List Char → Bool
  | [] => pat.isEmpty
  | c :: cs => beginsWith (c :: cs) pat || hasSeg pat cs

/-- Model of JS String.prototype.includes. -/
def jsIncludes (s pat : String) : Bool :=
  hasSeg pat.data s.data

/-- Model of JS String.prototype.startsWith. -/
def jsStartsWith (s pat : String) : Bool :=
  beginsWith s.data pat.data

/-- Model of JS falsiness for an optional environment string: undefined
and the empty string are falsy. -/
def jsFalsy : Option String → Bool
  | none => true
  | some s => s == ""

theorem beginsWith_iff (pat : List Char) : ∀ l : List Char,
    beginsWith l pat = true ↔ ∃ t, l = pat ++ t := by
  induction pat with
  | nil =>
    intro l
    simp [beginsWith]
  | cons p ps ih =>
    intro l
    cases l with
    | nil =>
      simp [beginsWith]
    | cons c cs =>
      simp only [beginsWith, Bool.and_eq_true, beq_iff_eq, ih]
      constructor
      · rintro ⟨rfl, t, rfl⟩
        exact ⟨t, rfl⟩
      · rintro ⟨t, h⟩
        rw [List.cons_append] at h
        obtain ⟨h1, h2⟩ := List.cons.inj h
        exact ⟨h1, t, h2⟩

theorem hasSeg_iff (pat : List Char) : ∀ l : List Char,
    hasSeg pat l = true ↔ ∃ s t, l = s ++ pat ++ t := by
  intro l
  induction l with
  | nil =>
    simp only [hasSeg, List.isEmpty_iff]
    constructor
    · rintro rfl
      exact ⟨[], [], rfl⟩
    · rintro ⟨s, t, h⟩
      rcases List.append_eq_nil.mp h.symm with ⟨h1, h2⟩
      exact (List.append_eq_nil.mp h1).2
  | cons c cs ih =>
    simp only [hasSeg, Bool.or_eq_true, beginsWith_iff, ih]
    constructor
    · rintro (⟨t, h⟩ | ⟨s, t, h⟩)
      · exact ⟨[], t, by simpa using h⟩
      · exact ⟨c :: s, t, by simp [h]⟩
    · rintro ⟨s, t, h⟩
      cases s with
      | nil =>
        exact Or.inl ⟨t, by simpa using h⟩
      | cons a as =>
        rw [List.cons_append, List.cons_append] at h
        obtain ⟨h1, h2⟩ := List.cons.inj h
        exact Or.inr ⟨as, t, h2⟩

theorem hasSeg_map_iff (pat : List Char) (f : Char → Char) (l : List Char) :
    hasSeg pat (l.map f) = true ↔ ∃ s w t, l = s ++ w ++ t ∧ w.map f = pat := by
  rw [hasSeg_iff]
  constructor
  · rintro ⟨s, t, h⟩
    rw [List.append_assoc, List.map_eq_append_iff] at h
    obtain ⟨l₁, l₂, rfl, h1, h2⟩ := h
    rw [List.map_eq_append_iff] at h2
    obtain ⟨w, l₃, rfl, hw, ht⟩ := h2
    exact ⟨l₁, w, l₃, by rw [List.append_assoc], hw⟩
  · rintro ⟨s, w, t, rfl, hw⟩
    exact ⟨s.map f, t.map f, by simp [hw]⟩

/-! Shallow embedding of src/tradingview-service/src/auth.js.

The file holds two near-identical variants of handleCaptchaLogin.  The
browser is abstracted as a sequence of observations, each pairing the
URL returned by driver.getCurrentUrl with the cookie set returned by
driver.manage().getCookies at that instant. -/

/-- A browser cookie as read from the Controlled Browser. -/
structure Cookie where
  name : String
  value : String
deriving DecidableEq

/-- One observation of the Controlled Browser: the current URL together
with the cookie set at the same instant. -/
structure Obs where
  url : String
  cookies : List Cookie
deriving DecidableEq

/-- The credentials extracted from the browser cookies, the value the
captcha login resolves with. -/
structure Session where
  session : String
  signature : String
deriving DecidableEq

/-- Model of cookies.find on the cookie name, as in
cookies.find(cookie => cookie.name === n). -/
def findCookie (cs : List Cookie) (n : String) : Option Cookie :=
  cs.find? (fun c => c.name == n)

/-- The URL test of the first handleCaptchaLogin variant, auth.js line
103: not on the sign-in path and on the tradingview origin. -/
def urlOkV1 (url : String) : Bool :=
  !(jsIncludes url "/accounts/signin/") && jsStartsWith url "https://www.tradingview.com/"

/-- One iteration of the first variant's poll loop, auth.js lines
98-127.  The URL is read first (observation o1); only if it passes does
the code sleep and then read the cookies (the later observation o2).
Cookie values are not inspected, only presence of the two names. -/
def pollIterV1 (o1 o2 : Obs) : Option Session :=
  if urlOkV1 o1.url then
    match findCookie o2.cookies "sessionid", findCookie o2.cookies "sessionid_sign" with
    | some c1, some c2 => some ⟨c1.value, c2.value⟩
    | _, _ => none
  else none

/-- The first variant's whole poll loop over the finite sequence of
observation pairs available before the deadline. -/
def pollLoopV1 : List (Obs × Obs) → Option Session
  | [] => none
  | p :: rest =>
    match pollIterV1 p.1 p.2 with
    | some s => some s
    | none => pollLoopV1 rest

/-- isMainPage of the second variant, auth.js line 245. -/
def isMainPage (url : String) : Bool :=
  jsStartsWith url "https://www.tradingview.com/" && !(jsIncludes url "signin")

/-- isNotSignInPage of the second variant, auth.js line 246. -/
def isNotSignInPage (url : String) : Bool :=
  !(jsIncludes url "/accounts/signin/")

/-- One iteration of the second variant's poll loop, auth.js lines
240-274: URL and cookies come from the same snapshot, success requires
(isMainPage or isNotSignInPage) plus presence of both cookie names;
values are not inspected. -/
def pollIterV2 (o : Obs) : Option Session :=
  match findCookie o.cookies "sessionid", findCookie o.cookies "sessionid_sign" with
  | some c1, some c2 =>
    if isMainPage o.url || isNotSignInPage o.url then some ⟨c1.value, c2.value⟩
    else none
  | _, _ => none

/-- The second variant's whole poll loop over the finite sequence of
observations available before the deadline. -/
def pollLoopV2 : List Obs → Option Session
  | [] => none
  | o :: rest =>
    match pollIterV2 o with
    | some s => some s
    | none => pollLoopV2 rest

/-- Success condition as the spec words it, for comparison with the
code: both required cookies present and non-empty and the location off
the sign-in page, all in one and the same observation. -/
def specPollSuccess (o : Obs) : Bool :=
  (match findCookie o.cookies "sessionid" with
   | some c => !(c.value == "")
   | none => false)
  && (match findCookie o.cookies "sessionid_sign" with
      | some c => !(c.value == "")
      | none => false)
  && !(jsIncludes o.url "/accounts/signin/")

/-- Timeout message thrown by the first variant, auth.js line 129. -/
def captchaTimeoutMsgV1 : String :=
  "Login timeout: Could not complete login process"

/-- Timeout message thrown by the second variant, auth.js line 279,
naming the observed cookie names but never cookie values. -/
def captchaTimeoutMsgV2 (names : List String) : String :=
  "Timed out waiting for successful login. Available cookies: " ++ String.intercalate ", " names

/-- Result of a whole handleCaptchaLogin call: the returned or thrown
value, plus how many times driver.quit was called. -/
structure CaptchaOut where
  result : Except String Session
  quitCalls : Nat

/-- Whether an Except value is the ok branch. -/
def exceptOk {ε α : Type} : Except ε α → Bool
  | .ok _ => true
  | .error _ => false

/-- Body of the first handleCaptchaLogin variant after the driver was
built: the navigation / form steps (pre) may throw; otherwise the poll
loop runs and a miss becomes the timeout error. -/
def captchaBodyV1 (pre : Except String Unit) (polls : List (Obs × Obs)) :
    Except String Session :=
  match pre with
  | .error m => .error m
  | .ok _ =>
    match pollLoopV1 polls with
    | some s => .ok s
    | none => .error captchaTimeoutMsgV1

/-- First handleCaptchaLogin variant, auth.js lines 6-144.  If the
Builder build call throws, driver stays unset and the finally block
skips quit; otherwise driver is set and the finally block calls quit
exactly once on every exit path (the catch only logs and rethrows, and
a quit failure is itself caught and swallowed). -/
def handleCaptchaLoginV1 (build pre : Except String Unit)
    (polls : List (Obs × Obs)) : CaptchaOut :=
  match build with
  | .error m => ⟨.error m, 0⟩
  | .ok _ => ⟨captchaBodyV1 pre polls, 1⟩

/-- Body of the second handleCaptchaLogin variant after the driver was
built; on timeout the error names the cookie names observed at the
end. -/
def captchaBodyV2 (pre : Except String Unit) (obss : List Obs)
    (finalNames : List String) : Except String Session :=
  match pre with
  | .error m => .error m
  | .ok _ =>
    match pollLoopV2 obss with
    | some s => .ok s
    | none => .error (captchaTimeoutMsgV2 finalNames)

/-- Second handleCaptchaLogin variant, auth.js lines 152-297; same
try / catch / finally shape as the first. -/
def handleCaptchaLoginV2 (build pre : Except String Unit)
    (obss : List Obs) (finalNames : List String) : CaptchaOut :=
  match build with
  | .error m => ⟨.error m, 0⟩
  | .ok _ => ⟨captchaBodyV2 pre obss finalNames, 1⟩

/-! Shallow embedding of src/tradingview-service/src/index.js. -/

/-- A TradingView.Client value: either the client of the direct
credential login (index.js line 151) or the client built from the
browser-obtained cookies (index.js lines 174-177). -/
inductive Client where
  | direct
  | fromBrowser (token signature : String)
deriving DecidableEq

/-- Outcome of the external client.login(USERNAME, PASSWORD) call. -/
inductive CredLoginResult where
  | ok
  | err (message : String)
deriving DecidableEq

/-- Outcome of the external handleCaptchaLogin call as seen by
index.js: either the cookie pair or a rejection message. -/
inductive CaptchaResult where
  | ok (s : Session)
  | err (message : String)
deriving DecidableEq

/-- The process-wide mutable state of index.js: the global
authenticatedClient variable (line 130). -/
structure BrokerState where
  authenticatedClient : Option Client
deriving DecidableEq

/-- How a loginToTradingView call settles: resolution with a client or
rejection with an error message. -/
inductive LoginResult where
  | resolved (c : Client)
  | rejected (message : String)
deriving DecidableEq

/-- A whole loginToTradingView call: its settlement, the broker state
after it, and whether handleCaptchaLogin was started. -/
structure LoginRun where
  result : LoginResult
  state : BrokerState
  challengeStarted : Bool
deriving DecidableEq

/-- Message of the credential check throw, index.js line 144. -/
def credsMissingMsg : String :=
  "TradingView username or password not provided"

/-- The bot-detection test of index.js lines 165-166: the lower-cased
rejection message contains captcha or robot. -/
def botDetected (msg : String) : Bool :=
  jsIncludes (jsToLowerCase msg) "captcha" || jsIncludes (jsToLowerCase msg) "robot"

/-- The spec's reading of the same test: the rejection reason contains
captcha or robot as a case-insensitive substring. -/
def specBotReason (msg : String) : Prop :=
  ∃ s w t, msg.data = s ++ w ++ t ∧
    (w.map asciiLower = "captcha".data ∨ w.map asciiLower = "robot".data)

/-- loginToTradingView, index.js lines 133-195.  Both success paths
assign the global authenticatedClient to the client they resolve with
(lines 158-159 and 179-180); a credential-check failure throws before
any network call; a non-bot rejection is re-raised unchanged; a bot
rejection starts handleCaptchaLogin, whose own failure is re-raised. -/
def loginToTradingView (userEnv passEnv : Option String)
    (cred : CredLoginResult) (captcha : CaptchaResult)
    (st : BrokerState) : LoginRun :=
  if jsFalsy userEnv || jsFalsy passEnv then
    ⟨.rejected credsMissingMsg, st, false⟩
  else
    match cred with
    | .ok => ⟨.resolved .direct, ⟨some .direct⟩, false⟩
    | .err msg =>
      if botDetected msg then
        match captcha with
        | .ok s =>
          ⟨.resolved (.fromBrowser s.session s.signature),
           ⟨some (.fromBrowser s.session s.signature)⟩, true⟩
        | .err cmsg => ⟨.rejected cmsg, st, true⟩
      else ⟨.rejected msg, st, false⟩

/-! JSON values, for the frames the service sends over the socket. -/

/-- A JSON value as produced by JSON.stringify of the objects index.js
sends. -/
inductive Json where
  | str (s : String)
  | num (n : Int)
  | arr (xs : List Json)
  | obj (fields : List (String × Json))
  | null

/-- Field list helper for a possibly-undefined string property: JS
JSON.stringify drops a property whose value is undefined. -/
def optStrField (name : String) : Option String → List (String × Json)
  | some v => [(name, .str v)]
  | none => []

/-- The keys of a JSON object, in order. -/
def objKeys : Json → List String
  | .obj fs => fs.map (fun f => f.1)
  | _ => []

/-- Field lookup in a JSON object. -/
def objLookup (name : String) : Json → Option Json
  | .obj fs => (fs.find? (fun f => f.1 == name)).map (fun f => f.2)
  | _ => none

/-- The value of the type field of a frame, when it is a string. -/
def frameTypeStr (j : Json) : Option String :=
  match objLookup "type" j with
  | some (.str t) => some t
  | _ => none

/-- A frame the handler is allowed to send: a market update, a
heartbeat, or a structured error envelope. -/
def isResponseFrame (j : Json) : Bool :=
  frameTypeStr j == some "market_update" || frameTypeStr j == some "heartbeat"
    || frameTypeStr j == some "error"

/-- The chart data delivered by the external TradingView library for
one getChartData call: chart.periods plus the three study outputs. -/
structure ChartData where
  periods : List Json
  rsi : List Json
  bb : List Json
  superTrend : List Json

/-- The success envelope built by getChartData, index.js lines 92-104:
field names type, symbol, interval, timestamp, prices, indicators. -/
def getChartData (symbol interval : Option String) (ts : String)
    (d : ChartData) : Json :=
  .obj ([("type", .str "market_update")]
    ++ optStrField "symbol" symbol
    ++ optStrField "interval" interval
    ++ [("timestamp", .str ts),
        ("prices", .arr d.periods),
        ("indicators", .obj [("RSI", .arr d.rsi), ("BB", .arr d.bb),
                             ("SuperTrend", .arr d.superTrend)])])

/-- A parsed inbound message after the destructuring on index.js line
216; absent properties are undefined. -/
structure Msg where
  type : Option String
  symbol : Option String
  interval : Option String

/-- The external effects one message-handler invocation can hit: the
credential login outcome, the captcha login outcome, the chart fetch
outcome, and the current timestamp string. -/
structure Oracle where
  cred : CredLoginResult
  captcha : CaptchaResult
  chart : Except String ChartData
  now : String

/-- Result of one ws message-handler invocation: the frames sent on the
connection, how many loginToTradingView calls it made, whether it
closed the connection, and the broker state it leaves behind. -/
structure HandlerOut where
  frames : List Json
  loginCalls : Nat
  closed : Bool
  state : BrokerState

/-- An error envelope as built on index.js lines 232-236, 246-249 and
253-256; the symbol field is present only in the get_indicators catch
branch. -/
def errFrame (symbol : Option String) (msg : String) : Json :=
  .obj ([("type", .str "error")] ++ optStrField "symbol" symbol
    ++ [("message", .str msg)])

/-- The heartbeat envelope of index.js line 241. -/
def heartbeatFrame (ts : String) : Json :=
  .obj [("type", .str "heartbeat"), ("timestamp", .str ts)]

/-- The switch on message type, index.js lines 225-250, given an
already-ensured session. -/
def dispatch (m : Msg) (o : Oracle) : List Json :=
  if m.type == some "get_indicators" then
    match o.chart with
    | .ok d => [getChartData m.symbol m.interval o.now d]
    | .error e => [errFrame m.symbol e]
  else if m.type == some "heartbeat" then
    [heartbeatFrame o.now]
  else
    [errFrame none "Unknown request type"]

/-- One invocation of the ws message handler, index.js lines 213-258.
A parse failure goes to the outer catch; otherwise, before any
dispatch, the handler ensures a session: if the global is unset it
awaits loginToTradingView, and a rejection there also lands in the
outer catch, which sends a single error envelope.  The handler never
closes the connection. -/
def onMessage (userEnv passEnv : Option String) (raw : Except String Msg)
    (st : BrokerState) (o : Oracle) : HandlerOut :=
  match raw with
  | .error e => ⟨[errFrame none e], 0, false, st⟩
  | .ok m =>
    match st.authenticatedClient with
    | some _ => ⟨dispatch m o, 0, false, st⟩
    | none =>
      let r := loginToTradingView userEnv passEnv o.cred o.captcha st
      match r.result with
      | .resolved c => ⟨dispatch m o, 1, false, ⟨some c⟩⟩
      | .rejected msg => ⟨[errFrame none msg], 1, false, r.state⟩

/-! Startup order of the index.js module. -/

/-- Events of module evaluation, in order.  fatalExit would be a
process abort before accepting connections; index.js has no such path:
the login IIFE (lines 198-206) catches and only logs its error. -/
inductive StartupEvent where
  | serverStarted (port : Nat)
  | loginResolved
  | loginFailedLogged (message : String)
  | fatalExit
deriving DecidableEq

/-- The top-level evaluation order of index.js: the WebSocket.Server is
constructed on line 43, before the credentials are even read; then the
initial-login IIFE runs, and its failure is caught and logged. -/
def startupTrace (userEnv passEnv : Option String) (port : Nat)
    (cred : CredLoginResult) (captcha : CaptchaResult) : List StartupEvent :=
  StartupEvent.serverStarted port ::
    (match (loginToTradingView userEnv passEnv cred captcha ⟨none⟩).result with
     | .resolved _ => [.loginResolved]
     | .rejected m => [.loginFailedLogged m])

/-! Interleaving model of concurrent message handlers.

Each handler runs, at its await points, the atomic steps of the
session-ensuring prefix at index.js lines 221-223: one atomic step
reads the global authenticatedClient and, when unset, synchronously
starts a login attempt and suspends on it; a later step is that
attempt resolving and setting the global. -/

/-- Program counter of one handler task: about to run the session
check, suspended on its own login attempt, or past the check. -/
inductive TaskPC where
  | checking
  | loggingIn
  | dispatched
deriving DecidableEq

/-- The shared system: whether the global session variable is set, how
many login attempts are currently in flight, how many were ever
started, and the task list. -/
structure CSys where
  session : Bool
  inFlight : Nat
  started : Nat
  tasks : List TaskPC
deriving DecidableEq

/-- One atomic step of task i.  A checking task that sees the session
set proceeds without a login; one that sees it unset starts its own
login attempt (index.js line 222) and suspends; a suspended task's
attempt resolves, setting the global. -/
def stepTask (s : CSys) (i : Nat) : CSys :=
  match s.tasks.get? i with
  | some .checking =>
    if s.session then { s with tasks := s.tasks.set i .dispatched }
    else { s with inFlight := s.inFlight + 1, started := s.started + 1,
                  tasks := s.tasks.set i .loggingIn }
  | some .loggingIn =>
    { s with session := true, inFlight := s.inFlight - 1,
             tasks := s.tasks.set i .dispatched }
  | _ => s

/-- Run a schedule: the listed task indices take their next atomic
steps in order. -/
def runSched (s : CSys) : List Nat → CSys
  | [] => s
  | i :: rest => runSched (stepTask s i) rest

/-- Initial system: no session, no attempts, n handler invocations all
about to run the session check. -/
def initSys (n : Nat) : CSys :=
  ⟨false, 0, 0, List.replicate n .checking⟩

/-! Helper lemmas shared by the claim theorems. -/

theorem stringDataMk (l : List Char) : String.data ⟨l⟩ = l := rfl

theorem botDetected_iff (msg : String) :
    botDetected msg = true ↔ specBotReason msg := by
  unfold botDetected jsIncludes jsToLowerCase specBotReason
  rw [stringDataMk, Bool.or_eq_true, hasSeg_map_iff, hasSeg_map_iff]
  constructor
  · rintro (⟨s, w, t, h1, h2⟩ | ⟨s, w, t, h1, h2⟩)
    · exact ⟨s, w, t, h1, Or.inl h2⟩
    · exact ⟨s, w, t, h1, Or.inr h2⟩
  · rintro ⟨s, w, t, h1, h2 | h2⟩
    · exact Or.inl ⟨s, w, t, h1, h2⟩
    · exact Or.inr ⟨s, w, t, h1, h2⟩

/-! Claim C1.  The spec asserts that for concurrent callers needing a
session while none exists, exactly one login attempt starts and later
callers wait on it.  index.js has no such serialization: the handler
prefix (lines 220-223) is a bare check-then-act on the global. -/

/-- Claim C1, counterexample: two concurrent handler invocations with
no session, scheduled so both run their session check before either
login resolves, start two login attempts that are simultaneously in
flight — refuting that at most one login attempt (and one Controlled
Browser launch) is in flight system-wide and that later callers wait
on the in-flight attempt. -/
theorem c1_counterexample :
    (runSched (initSys 2) [0, 1]).inFlight = 2 ∧
    (runSched (initSys 2) [0, 1]).started = 2 :=
  ⟨rfl, rfl⟩

/-- Claim C1, amended: there is no login serialization.  Every handler
invocation whose session check observes no session synchronously
starts its own login attempt (it never enqueues behind an in-flight
one), while an invocation observing an established session starts
none. -/
theorem c1_no_login_serialization (s : CSys) (i : Nat)
    (h : s.tasks.get? i = some .checking) :
    (s.session = false →
      (stepTask s i).started = s.started + 1 ∧
      (stepTask s i).inFlight = s.inFlight + 1) ∧
    (s.session = true →
      (stepTask s i).started = s.started ∧
      (stepTask s i).inFlight = s.inFlight) := by
  unfold stepTask
  rw [h]
  constructor
  · intro hs
    rw [hs]
    simp
  · intro hs
    rw [hs]
    simp

/-- Claim C1, witness for the amended theorem at a concrete system. -/
theorem c1_no_login_serialization_witness :
    (stepTask (initSys 1) 0).started = (initSys 1).started + 1 ∧
    (stepTask (initSys 1) 0).inFlight = (initSys 1).inFlight + 1 :=
  (c1_no_login_serialization (initSys 1) 0 rfl).1 rfl

/-! Claim C2.  The spec asserts the poll loop succeeds only when both
cookies are present AND NON-EMPTY and the URL is off the sign-in page
in the same observation.  The code checks presence only, and the first
variant reads the cookies in a later observation than the URL. -/

/-- Claim C2, counterexample: the second poll variant reports success
on a snapshot whose two required cookies are present but EMPTY, and
the first variant reports success from a pair of observations of which
neither satisfies the spec's success condition (the first has the URL
off sign-in but no cookies, the second has the cookies but its URL is
back on the sign-in page). -/
theorem c2_counterexample :
    pollIterV2 ⟨"https://www.tradingview.com/chart/",
        [⟨"sessionid", ""⟩, ⟨"sessionid_sign", ""⟩]⟩ = some ⟨"", ""⟩ ∧
    specPollSuccess ⟨"https://www.tradingview.com/chart/",
        [⟨"sessionid", ""⟩, ⟨"sessionid_sign", ""⟩]⟩ = false ∧
    pollIterV1 ⟨"https://www.tradingview.com/", []⟩
        ⟨"https://www.tradingview.com/accounts/signin/",
         [⟨"sessionid", "abc"⟩, ⟨"sessionid_sign", "xyz"⟩]⟩ = some ⟨"abc", "xyz"⟩ ∧
    specPollSuccess ⟨"https://www.tradingview.com/", []⟩ = false ∧
    specPollSuccess ⟨"https://www.tradingview.com/accounts/signin/",
         [⟨"sessionid", "abc"⟩, ⟨"sessionid_sign", "xyz"⟩]⟩ = false := by
  refine ⟨rfl, rfl, rfl, rfl, rfl⟩

/-- Claim C2, amended: each poll loop reports success only when its
location check passed and both cookies named sessionid and
sessionid_sign were present, the returned session being built from
those cookies' values — which may be empty, since values are never
inspected; in the second variant location and cookies come from the
same snapshot, while in the first variant the cookies come from a
later observation than the location check. -/
theorem c2_poll_success_conditions :
    (∀ o s, pollIterV2 o = some s →
      (isMainPage o.url || isNotSignInPage o.url) = true ∧
      ∃ c1 c2, findCookie o.cookies "sessionid" = some c1 ∧
        findCookie o.cookies "sessionid_sign" = some c2 ∧
        s = ⟨c1.value, c2.value⟩) ∧
    (∀ obss s, pollLoopV2 obss = some s → ∃ o, o ∈ obss ∧ pollIterV2 o = some s) ∧
    (∀ o1 o2 s, pollIterV1 o1 o2 = some s →
      urlOkV1 o1.url = true ∧
      ∃ c1 c2, findCookie o2.cookies "sessionid" = some c1 ∧
        findCookie o2.cookies "sessionid_sign" = some c2 ∧
        s = ⟨c1.value, c2.value⟩) ∧
    (∀ ps s, pollLoopV1 ps = some s →
      ∃ p, p ∈ ps ∧ pollIterV1 p.1 p.2 = some s) := by
  refine ⟨?_, ?_, ?_, ?_⟩
  · intro o s h
    unfold pollIterV2 at h
    split at h
    next c1 c2 h1 h2 =>
      split at h
      next hcond =>
        cases h
        exact ⟨by simpa using hcond, c1, c2, h1, h2, rfl⟩
      next => cases h
    next => cases h
  · intro obss
    induction obss with
    | nil => intro s h; cases h
    | cons o rest ih =>
      intro s h
      unfold pollLoopV2 at h
      split at h
      next s' heq =>
        cases h
        exact ⟨o, List.mem_cons_self o rest, heq⟩
      next heq =>
        obtain ⟨o', ho', hs'⟩ := ih s h
        exact ⟨o', List.mem_cons_of_mem o ho', hs'⟩
  · intro o1 o2 s h
    unfold pollIterV1 at h
    split at h
    next hurl =>
      split at h
      next c1 c2 h1 h2 =>
        cases h
        exact ⟨by simpa using hurl, c1, c2, h1, h2, rfl⟩
      next => cases h
    next => cases h
  · intro ps
    induction ps with
    | nil => intro s h; cases h
    | cons p rest ih =>
      intro s h
      unfold pollLoopV1 at h
      split at h
      next s' heq =>
        cases h
        exact ⟨p, List.mem_cons_self p rest, heq⟩
      next heq =>
        obtain ⟨p', hp', hs'⟩ := ih s h
        exact ⟨p', List.mem_cons_of_mem p hp', hs'⟩

/-- Claim C2, witness for the amended theorem at a concrete run of the
second variant's loop. -/
theorem c2_poll_success_conditions_witness :
    ∃ o, o ∈ [(⟨"https://www.tradingview.com/chart/",
        [⟨"sessionid", "abc"⟩, ⟨"sessionid_sign", "xyz"⟩]⟩ : Obs)] ∧
      pollIterV2 o = some ⟨"abc", "xyz"⟩ :=
  c2_poll_success_conditions.2.1
    [⟨"https://www.tradingview.com/chart/",
      [⟨"sessionid", "abc"⟩, ⟨"sessionid_sign", "xyz"⟩]⟩]
    ⟨"abc", "xyz"⟩ rfl

/-! Claim C3.  The spec asserts a heartbeat request never triggers a
login and never blocks.  In index.js the session-ensuring check (lines
220-223) runs before the dispatch switch, for every message type. -/

/-- Claim C3, counterexample: a heartbeat request arriving with no
session established makes the handler call loginToTradingView, and
when that login rejects the client receives an error envelope instead
of the heartbeat response — refuting that a heartbeat is returned
immediately without triggering a login attempt. -/
theorem c3_counterexample :
    (onMessage (some "user") (some "pass") (.ok ⟨some "heartbeat", none, none⟩)
        ⟨none⟩ ⟨.err "rejected", .err "x", .error "e", "T0"⟩).loginCalls = 1 ∧
    (onMessage (some "user") (some "pass") (.ok ⟨some "heartbeat", none, none⟩)
        ⟨none⟩ ⟨.err "rejected", .err "x", .error "e", "T0"⟩).frames
      = [errFrame none "rejected"] :=
  ⟨rfl, rfl⟩

/-- Claim C3, amended: a heartbeat request is answered with the
heartbeat envelope and no login attempt only when a session is already
established; when no session exists the handler first performs a login
attempt (it blocks on it, and its failure turns the response into an
error envelope). -/
theorem c3_heartbeat_behind_session_check (userEnv passEnv : Option String)
    (m : Msg) (st : BrokerState) (o : Oracle) (hm : m.type = some "heartbeat") :
    (∀ c, st.authenticatedClient = some c →
      (onMessage userEnv passEnv (.ok m) st o).frames = [heartbeatFrame o.now] ∧
      (onMessage userEnv passEnv (.ok m) st o).loginCalls = 0) ∧
    (st.authenticatedClient = none →
      (onMessage userEnv passEnv (.ok m) st o).loginCalls = 1) := by
  have hd : dispatch m o = [heartbeatFrame o.now] := by
    unfold dispatch
    rw [hm]
    simp
  constructor
  · intro c hc
    unfold onMessage
    rw [hc]
    simp [hd]
  · intro hn
    unfold onMessage
    rw [hn]
    cases hr : (loginToTradingView userEnv passEnv o.cred o.captcha st).result <;>
      simp [hr]

/-- Claim C3, witness for the amended theorem at a concrete input with
an established session. -/
theorem c3_heartbeat_behind_session_check_witness :
    (onMessage (some "u") (some "p") (.ok ⟨some "heartbeat", none, none⟩)
        ⟨some .direct⟩ ⟨.ok, .err "x", .error "e", "T0"⟩).frames
      = [heartbeatFrame "T0"] ∧
    (onMessage (some "u") (some "p") (.ok ⟨some "heartbeat", none, none⟩)
        ⟨some .direct⟩ ⟨.ok, .err "x", .error "e", "T0"⟩).loginCalls = 0 :=
  (c3_heartbeat_behind_session_check (some "u") (some "p")
    ⟨some "heartbeat", none, none⟩ ⟨some .direct⟩
    ⟨.ok, .err "x", .error "e", "T0"⟩ rfl).1 .direct rfl

/-! Claim C4.  The spec asserts that missing USERNAME or PASSWORD is
fatal before any connection is accepted.  index.js constructs the
WebSocket server on line 43, before the credentials are read, and the
initial-login IIFE (lines 198-206) catches the credential error and
only logs it. -/

/-- Claim C4, counterexample: with USERNAME absent the module still
starts the WebSocket server, the initial login fails with the
credentials message, the failure is merely logged, and no fatal exit
occurs — refuting that the process fails fatally before accepting any
client connection. -/
theorem c4_counterexample :
    startupTrace none (some "pw") 8765 .ok (.err "x")
      = [.serverStarted 8765, .loginFailedLogged credsMissingMsg] ∧
    StartupEvent.serverStarted 8765 ∈ startupTrace none (some "pw") 8765 .ok (.err "x") ∧
    StartupEvent.fatalExit ∉ startupTrace none (some "pw") 8765 .ok (.err "x") := by
  refine ⟨rfl, by decide, by decide⟩

/-- Claim C4, amended: when USERNAME or PASSWORD is absent (or empty),
the WebSocket server is still started — it is constructed before any
credential check — and the initial login attempt fails with the
credentials-missing message, which is caught and logged; the process
never exits fatally on this path. -/
theorem c4_server_starts_without_credentials (u p : Option String) (port : Nat)
    (cred : CredLoginResult) (cap : CaptchaResult)
    (h : (jsFalsy u || jsFalsy p) = true) :
    startupTrace u p port cred cap
      = [.serverStarted port, .loginFailedLogged credsMissingMsg] ∧
    StartupEvent.fatalExit ∉ startupTrace u p port cred cap := by
  have h1 : startupTrace u p port cred cap
      = [.serverStarted port, .loginFailedLogged credsMissingMsg] := by
    unfold startupTrace loginToTradingView
    rw [h]
    simp
  refine ⟨h1, ?_⟩
  rw [h1]
  simp

/-- Claim C4, witness for the amended theorem at a concrete input. -/
theorem c4_server_starts_without_credentials_witness :
    startupTrace none none 9000 .ok (.ok ⟨"a", "b"⟩)
      = [.serverStarted 9000, .loginFailedLogged credsMissingMsg] ∧
    StartupEvent.fatalExit ∉ startupTrace none none 9000 .ok (.ok ⟨"a", "b"⟩) :=
  c4_server_starts_without_credentials none none 9000 .ok (.ok ⟨"a", "b"⟩) rfl

/-! Claim C5.  The bot-detection branch of loginToTradingView. -/

/-- Claim C5: for every rejection of the fast credential login, the
challenge (captcha browser) login is started if and only if the
rejection reason contains captcha or robot as a case-insensitive
substring, and for every other reason the call rejects with the
original cause and the challenge login is never started. -/
theorem c5_challenge_iff_bot_reason (u p : Option String) (msg : String)
    (cap : CaptchaResult) (st : BrokerState)
    (hu : jsFalsy u = false) (hp : jsFalsy p = false) :
    ((loginToTradingView u p (.err msg) cap st).challengeStarted = true ↔
      specBotReason msg) ∧
    (¬ specBotReason msg →
      loginToTradingView u p (.err msg) cap st = ⟨.rejected msg, st, false⟩) := by
  have hbi := botDetected_iff msg
  unfold loginToTradingView
  rw [hu, hp]
  by_cases hb : botDetected msg = true
  · have hspec : specBotReason msg := hbi.mp hb
    cases cap with
    | ok s => simp [hb, hspec]
    | err m => simp [hb, hspec]
  · have hspec : ¬ specBotReason msg := fun hx => hb (hbi.mpr hx)
    simp [hb, hspec]

/-- Claim C5, witness at a concrete bot-flavoured rejection reason. -/
theorem c5_challenge_iff_bot_reason_witness :
    ((loginToTradingView (some "u") (some "p") (.err "Captcha required")
        (.err "x") ⟨none⟩).challengeStarted = true ↔
      specBotReason "Captcha required") ∧
    (¬ specBotReason "Captcha required" →
      loginToTradingView (some "u") (some "p") (.err "Captcha required")
          (.err "x") ⟨none⟩
        = ⟨.rejected "Captcha required", ⟨none⟩, false⟩) :=
  c5_challenge_iff_bot_reason (some "u") (some "p") "Captcha required"
    (.err "x") ⟨none⟩ rfl rfl

/-! Claim C6.  The spec asserts that an auth-class provider error on a
fetch triggers exactly one invalidate plus one re-acquire.  The
get_indicators branch of index.js (lines 226-238) has no invalidate
and no retry: any getChartData failure is answered with one error
envelope and the session is kept. -/

/-- Claim C6, counterexample: a get_indicators request whose provider
call reports an authentication-class error is answered with a single
error envelope while the session is left in place and no further
loginToTradingView call is made — refuting that the router invokes
invalidate and retries acquire exactly once (the code performs zero
invalidations and zero retries). -/
theorem c6_counterexample :
    (onMessage (some "u") (some "p")
        (.ok ⟨some "get_indicators", some "BTCUSD", some "1h"⟩)
        ⟨some .direct⟩
        ⟨.ok, .err "x", .error "Error: Authentication failed", "T0"⟩).frames
      = [errFrame (some "BTCUSD") "Error: Authentication failed"] ∧
    (onMessage (some "u") (some "p")
        (.ok ⟨some "get_indicators", some "BTCUSD", some "1h"⟩)
        ⟨some .direct⟩
        ⟨.ok, .err "x", .error "Error: Authentication failed", "T0"⟩).loginCalls = 0 ∧
    (onMessage (some "u") (some "p")
        (.ok ⟨some "get_indicators", some "BTCUSD", some "1h"⟩)
        ⟨some .direct⟩
        ⟨.ok, .err "x", .error "Error: Authentication failed", "T0"⟩).state
      = ⟨some .direct⟩ :=
  ⟨rfl, rfl, rfl⟩

/-- Claim C6, amended: with a session established, a get_indicators
request whose provider call reports any error (authentication-class
included) is answered with exactly one structured error envelope
naming the requested symbol; the session is never invalidated (the
broker state is unchanged) and acquire is never retried (no login call
is made). -/
theorem c6_fetch_error_no_retry (userEnv passEnv : Option String) (m : Msg)
    (st : BrokerState) (o : Oracle) (c : Client) (e : String)
    (hm : m.type = some "get_indicators")
    (hst : st.authenticatedClient = some c)
    (he : o.chart = .error e) :
    onMessage userEnv passEnv (.ok m) st o
      = ⟨[errFrame m.symbol e], 0, false, st⟩ := by
  have hd : dispatch m o = [errFrame m.symbol e] := by
    unfold dispatch
    rw [hm, he]
    simp
  unfold onMessage
  rw [hst]
  simp [hd]

/-- Claim C6, witness for the amended theorem at a concrete input. -/
theorem c6_fetch_error_no_retry_witness :
    onMessage (some "u") (some "p")
        (.ok ⟨some "get_indicators", some "BTCUSD", some "1h"⟩)
        ⟨some .direct⟩ ⟨.ok, .err "x", .error "boom", "T0"⟩
      = ⟨[errFrame (some "BTCUSD") "boom"], 0, false, ⟨some .direct⟩⟩ :=
  c6_fetch_error_no_retry (some "u") (some "p")
    ⟨some "get_indicators", some "BTCUSD", some "1h"⟩
    ⟨some .direct⟩ ⟨.ok, .err "x", .error "boom", "T0"⟩ .direct "boom"
    rfl rfl rfl

/-! Claim C7.  The spec asserts the success envelope carries the field
names instrument, timeframe and bars.  getChartData (index.js lines
92-104) uses symbol, interval, prices and indicators instead. -/

/-- Claim C7, counterexample: the success envelope for a fetch of
BTCUSD at 1h has exactly the keys type, symbol, interval, timestamp,
prices, indicators — there is no instrument, timeframe or bars field,
refuting the claimed envelope shape. -/
theorem c7_counterexample :
    objKeys (getChartData (some "BTCUSD") (some "1h") "T0" ⟨[], [], [], []⟩)
      = ["type", "symbol", "interval", "timestamp", "prices", "indicators"] ∧
    "instrument" ∉ objKeys (getChartData (some "BTCUSD") (some "1h") "T0" ⟨[], [], [], []⟩) ∧
    "timeframe" ∉ objKeys (getChartData (some "BTCUSD") (some "1h") "T0" ⟨[], [], [], []⟩) ∧
    "bars" ∉ objKeys (getChartData (some "BTCUSD") (some "1h") "T0" ⟨[], [], [], []⟩) := by
  refine ⟨rfl, by decide, by decide, by decide⟩

/-- Claim C7, amended: every successful fetch response is an envelope
with exactly the keys type, symbol, interval, timestamp, prices,
indicators, whose type field is market_update and which echoes the
requested instrument and timeframe under the field names symbol and
interval. -/
theorem c7_market_update_envelope (sy iv ts : String) (d : ChartData) :
    objKeys (getChartData (some sy) (some iv) ts d)
      = ["type", "symbol", "interval", "timestamp", "prices", "indicators"] ∧
    objLookup "type" (getChartData (some sy) (some iv) ts d)
      = some (.str "market_update") ∧
    objLookup "symbol" (getChartData (some sy) (some iv) ts d) = some (.str sy) ∧
    objLookup "interval" (getChartData (some sy) (some iv) ts d) = some (.str iv) :=
  ⟨rfl, rfl, rfl, rfl⟩

/-! Claim C8.  The teardown discipline of both handleCaptchaLogin
variants: the finally block quits the driver exactly once whenever it
was built, on every exit path, and never otherwise. -/

/-- Claim C8: on every exit path of a challenge-login attempt —
success, pre-poll failure, poll timeout, with or without a successful
browser launch — the Controlled Browser is released exactly once when
it was acquired (the build succeeded) and never when it was not, in
both handleCaptchaLogin variants. -/
theorem c8_browser_released_once (build pre : Except String Unit)
    (polls : List (Obs × Obs)) (obss : List Obs) (names : List String) :
    (handleCaptchaLoginV1 build pre polls).quitCalls
      = (if exceptOk build then 1 else 0) ∧
    (handleCaptchaLoginV2 build pre obss names).quitCalls
      = (if exceptOk build then 1 else 0) := by
  cases build <;> exact ⟨rfl, rfl⟩

/-! Claim C9.  Every handler invocation sends exactly one frame. -/

theorem frameTypeStr_errFrame (sym : Option String) (msg : String) :
    frameTypeStr (errFrame sym msg) = some "error" := by
  cases sym <;> rfl

theorem frameTypeStr_heartbeatFrame (ts : String) :
    frameTypeStr (heartbeatFrame ts) = some "heartbeat" := rfl

theorem frameTypeStr_getChartData (sy iv : Option String) (ts : String)
    (d : ChartData) :
    frameTypeStr (getChartData sy iv ts d) = some "market_update" := by
  cases sy <;> cases iv <;> rfl

theorem dispatch_one_response (m : Msg) (o : Oracle) :
    (dispatch m o).length = 1 ∧ (dispatch m o).all isResponseFrame = true := by
  unfold dispatch
  by_cases h1 : (m.type == some "get_indicators") = true
  · cases hc : o.chart with
    | ok d =>
      simp [h1, hc, isResponseFrame, frameTypeStr_getChartData]
    | error e =>
      simp [h1, hc, isResponseFrame, frameTypeStr_errFrame]
  · by_cases h2 : (m.type == some "heartbeat") = true
    · simp [h1, h2, isResponseFrame, frameTypeStr_heartbeatFrame]
    · simp [h1, h2, isResponseFrame, frameTypeStr_errFrame]

/-- Claim C9: for every inbound message — malformed, of unknown type,
or well-formed — and every oracle outcome, the handler sends exactly
one frame on the connection, that frame is a market update, heartbeat
or structured error envelope, and the handler never closes the
connection (exceptions from parsing, login or the fetch are converted
into the single error envelope). -/
theorem c9_exactly_one_frame (userEnv passEnv : Option String)
    (raw : Except String Msg) (st : BrokerState) (o : Oracle) :
    (onMessage userEnv passEnv raw st o).frames.length = 1 ∧
    (onMessage userEnv passEnv raw st o).frames.all isResponseFrame = true ∧
    (onMessage userEnv passEnv raw st o).closed = false := by
  rcases raw with e | m
  · refine ⟨rfl, ?_, rfl⟩
    simp [onMessage, isResponseFrame, frameTypeStr_errFrame]
  · have hd := dispatch_one_response m o
    cases hst : st.authenticatedClient with
    | some c =>
      unfold onMessage
      rw [hst]
      exact ⟨hd.1, hd.2, rfl⟩
    | none =>
      unfold onMessage
      rw [hst]
      cases hr : (loginToTradingView userEnv passEnv o.cred o.captcha st).result with
      | resolved c =>
        simp only [hr]
        exact ⟨hd.1, hd.2, trivial⟩
      | rejected msg =>
        simp only [hr]
        refine ⟨rfl, ?_, trivial⟩
        simp [isResponseFrame, frameTypeStr_errFrame]

/-! Claim C10.  Both success paths of loginToTradingView assign the
global authenticatedClient to the client they resolve with. -/

/-- Claim C10: whenever loginToTradingView resolves, the process-wide
authenticatedClient variable holds exactly the client object the call
resolved with — on the fast credential path and on the browser
fallback path alike. -/
theorem c10_resolved_client_stored (u p : Option String)
    (cred : CredLoginResult) (cap : CaptchaResult) (st : BrokerState)
    (c : Client)
    (h : (loginToTradingView u p cred cap st).result = .resolved c) :
    (loginToTradingView u p cred cap st).state.authenticatedClient = some c := by
  unfold loginToTradingView at h ⊢
  by_cases hf : (jsFalsy u || jsFalsy p) = true
  · simp [hf] at h
  · cases cred with
    | ok =>
      simp [hf] at h ⊢
      exact h
    | err msg =>
      by_cases hb : botDetected msg = true
      · cases cap with
        | ok s =>
          simp [hf, hb] at h ⊢
          exact h
        | err m =>
          simp [hf, hb] at h
      · simp [hf, hb] at h

/-- Claim C10, witness on the fast credential path. -/
theorem c10_resolved_client_stored_witness :
    (loginToTradingView (some "u") (some "p") .ok (.err "x")
        ⟨none⟩).state.authenticatedClient = some .direct :=
  c10_resolved_client_stored (some "u") (some "p") .ok (.err "x") ⟨none⟩
    .direct rfl

end TVService
